import Mathlib

/-!
Shallow embedding of the autonomous-mode trigger engine of the CCLT-web
backend (src/backend/auto-mode-manager.js) and of the URL-selection helper
(src/backend/server-helpers.js, and the legacy inline copy in the standalone
server file), together with theorems settling the specification claims.

Device calls are recorded in an explicit trace; the outcome of each remote
call (success or thrown error) is supplied by an oracle so that every
success/failure combination can be reasoned about.  Timestamps are the
Nat values returned by Date.now(); arithmetic that JavaScript performs on
numbers (subtraction that may go negative) is done in Int.
-/

namespace CCLT

/-- One HTTP call the manager issues against the Flask peripheral endpoint:
GET /on, GET /off, POST /autonomous/start, POST /autonomous/stop. -/
inductive DevCall where
  | laserOn
  | laserOff
  | autoStart
  | autoStop
  deriving DecidableEq, Repr

/-- Outcome oracle for device calls: true means the awaited axios call
resolves, false means it throws. -/
abbrev DevOracle := DevCall → Bool

/-- Settings row as returned by getSettings in src/backend/database.js
(updatedAt is irrelevant to the trigger engine and omitted). -/
structure Settings where
  notificationsEnabled : Bool
  autonomousModeEnabled : Bool
  triggerType : String
  timeInterval : Nat
  sessionDuration : Nat
  deriving DecidableEq, Repr

/-- Mutable fields of AutonomousModeManager that the claims concern.
sessionTimer holds the pending auto-stop timer handle (modelled by its
scheduled fire time); lastActivationTime is the Date.now() value recorded at
the last start attempt. -/
structure ManagerState where
  isSessionActive : Bool
  sessionTimer : Option Nat
  lastActivationTime : Option Nat
  deriving DecidableEq, Repr

/-- State established by the constructor (lines 11-14 of
auto-mode-manager.js). -/
def initialState : ManagerState :=
  { isSessionActive := false, sessionTimer := none, lastActivationTime := none }

/-- Catch block of startLaserSession (lines 160-171): mark the session
inactive, then attempt the compensating GET /off followed by
POST /autonomous/stop; if /off throws, /autonomous/stop is never issued, and
every cleanup failure is swallowed. -/
def startFailureCleanup (dev : DevOracle) (s1 : ManagerState)
    (issued : List DevCall) : ManagerState × List DevCall :=
  let s2 := { s1 with isSessionActive := false }
  if dev DevCall.laserOff then
    (s2, issued ++ [DevCall.laserOff, DevCall.autoStop])
  else
    (s2, issued ++ [DevCall.laserOff])

/-- startLaserSession (lines 132-172): no-op when a session is already
active; otherwise set the active flag and lastActivationTime, issue GET /on
then POST /autonomous/start, and on success schedule the auto-stop timer for
durationMinutes from now.  If either call throws, control moves to the catch
block modelled by startFailureCleanup. -/
def startLaserSession (dev : DevOracle) (now durationMinutes : Nat)
    (s : ManagerState) : ManagerState × List DevCall :=
  if s.isSessionActive then
    (s, [])
  else
    let s1 := { s with isSessionActive := true, lastActivationTime := some now }
    let durationMs := durationMinutes * 60 * 1000
    if dev DevCall.laserOn then
      if dev DevCall.autoStart then
        ({ s1 with sessionTimer := some (now + durationMs) },
          [DevCall.laserOn, DevCall.autoStart])
      else
        startFailureCleanup dev s1 [DevCall.laserOn, DevCall.autoStart]
    else
      startFailureCleanup dev s1 [DevCall.laserOn]

/-- stopLaserSession (lines 177-200): early return when no session is
active; otherwise issue POST /autonomous/stop then GET /off (the second call
is skipped when the first throws), and in the finally block unconditionally
clear the active flag and the timer. -/
def stopLaserSession (dev : DevOracle) (s : ManagerState) :
    ManagerState × List DevCall :=
  if !s.isSessionActive then
    (s, [])
  else
    let trace :=
      if dev DevCall.autoStop then [DevCall.autoStop, DevCall.laserOff]
      else [DevCall.autoStop]
    ({ s with isSessionActive := false, sessionTimer := none }, trace)

/-- emergencyStop (lines 206-217): clear any pending timer, then run
stopLaserSession when a session is active. -/
def emergencyStop (dev : DevOracle) (s : ManagerState) :
    ManagerState × List DevCall :=
  let s1 := if s.sessionTimer.isSome then { s with sessionTimer := none } else s
  if s1.isSessionActive then stopLaserSession dev s1 else (s1, [])

/-- checkTimeBasedTrigger (lines 38-80): read settings for user jasmi, apply
the eligibility guards, and fire startLaserSession when lastActivationTime is
JS-falsy (null, or the number 0) or at least timeInterval hours have elapsed
since it. -/
def checkTimeBasedTrigger (dev : DevOracle)
    (getSettings : String → Option Settings) (now : Nat) (s : ManagerState) :
    ManagerState × List DevCall :=
  match getSettings "jasmi" with
  | none => (s, [])
  | some st =>
    if !st.autonomousModeEnabled then (s, [])
    else if st.notificationsEnabled then (s, [])
    else if st.triggerType ≠ "interval" then (s, [])
    else if s.isSessionActive then (s, [])
    else
      let intervalMs : Int := (st.timeInterval : Int) * 60 * 60 * 1000
      let fire : Bool :=
        match s.lastActivationTime with
        | none => true
        | some t => t == 0 || decide ((now : Int) - (t : Int) ≥ intervalMs)
      if fire then startLaserSession dev now st.sessionDuration s
      else (s, [])

/-- handleCatDetection (lines 85-127): read settings for user jasmi, apply
the same guards with triggerType detection, and fire startLaserSession
immediately; the detection payload is only logged. -/
def handleCatDetection (dev : DevOracle)
    (getSettings : String → Option Settings) (now : Nat)
    (_detectionData : String) (s : ManagerState) : ManagerState × List DevCall :=
  match getSettings "jasmi" with
  | none => (s, [])
  | some st =>
    if !st.autonomousModeEnabled then (s, [])
    else if st.notificationsEnabled then (s, [])
    else if st.triggerType ≠ "detection" then (s, [])
    else if s.isSessionActive then (s, [])
    else startLaserSession dev now st.sessionDuration s

/-- shutdown (lines 234-248): the interval timer and a pending session timer
are cleared at the runtime level (without nulling the stored handle), then
stopLaserSession runs when a session is active. -/
def shutdown (dev : DevOracle) (s : ManagerState) : ManagerState × List DevCall :=
  if s.isSessionActive then stopLaserSession dev s else (s, [])

/-- Primary/remote endpoint pair as configured from the environment. -/
structure UrlConfig where
  primary : String
  remote : String
  deriving DecidableEq, Repr

namespace ServerHelpers

/-- selectWorkingUrl in src/backend/server-helpers.js (lines 43-57): try the
primary health check, then the remote one, and return null (none) when both
fail.  The health oracle stands for checkServerHealth(url).available. -/
def selectWorkingUrl (health : String → Bool) (cfg : UrlConfig) : Option String :=
  if health cfg.primary then some cfg.primary
  else if health cfg.remote then some cfg.remote
  else none

end ServerHelpers

namespace LegacyServer

/-- selectWorkingUrl in the legacy standalone server file
(src/unnamed/part_000, lines 34-55): same probe order, but when both health
checks fail it falls back to the primary address. -/
def selectWorkingUrl (health : String → Bool) (cfg : UrlConfig) : String :=
  if health cfg.primary then cfg.primary
  else if health cfg.remote then cfg.remote
  else cfg.primary

end LegacyServer

/-- Number of invocations in a sequence of startLaserSession calls whose
pre-state is Idle and whose post-state is Active; each list entry supplies
the (now, durationMinutes) arguments of one invocation. -/
def countStartTransitions (dev : DevOracle) :
    List (Nat × Nat) → ManagerState → Nat
  | [], _ => 0
  | p :: rest, s =>
    (if s.isSessionActive = false ∧
        (startLaserSession dev p.1 p.2 s).1.isSessionActive = true
     then 1 else 0)
      + countStartTransitions dev rest (startLaserSession dev p.1 p.2 s).1

theorem startLaserSession_active_eq (dev : DevOracle) (now d : Nat)
    (s : ManagerState) (h : s.isSessionActive = true) :
    startLaserSession dev now d s = (s, []) := by
  simp [startLaserSession, h]

theorem startLaserSession_fst (dev : DevOracle) (now d : Nat)
    (s : ManagerState) :
    (startLaserSession dev now d s).1 =
      if s.isSessionActive then s
      else if dev DevCall.laserOn && dev DevCall.autoStart then
        { s with isSessionActive := true, lastActivationTime := some now,
                 sessionTimer := some (now + d * 60 * 1000) }
      else { s with isSessionActive := false, lastActivationTime := some now } := by
  rcases s with ⟨a, t, l⟩
  by_cases h1 : a <;> by_cases h2 : dev DevCall.laserOn <;>
    by_cases h3 : dev DevCall.autoStart <;> by_cases h4 : dev DevCall.laserOff <;>
    simp [startLaserSession, startFailureCleanup, h1, h2, h3, h4]

theorem countStartTransitions_active (dev : DevOracle)
    (inputs : List (Nat × Nat)) (s : ManagerState)
    (h : s.isSessionActive = true) :
    countStartTransitions dev inputs s = 0 := by
  induction inputs generalizing s with
  | nil => rfl
  | cons p rest ih =>
    rw [countStartTransitions, startLaserSession_active_eq dev p.1 p.2 s h]
    simp [h, ih s h]

theorem countStartTransitions_le_one (dev : DevOracle)
    (inputs : List (Nat × Nat)) (s : ManagerState) :
    countStartTransitions dev inputs s ≤ 1 := by
  induction inputs generalizing s with
  | nil => exact Nat.zero_le 1
  | cons p rest ih =>
    rw [countStartTransitions]
    by_cases ha : s.isSessionActive
    · rw [startLaserSession_active_eq dev p.1 p.2 s ha]
      simp [ha, countStartTransitions_active dev rest s ha]
    · by_cases ha' : (startLaserSession dev p.1 p.2 s).1.isSessionActive
      · have hz := countStartTransitions_active dev rest _ ha'
        simp [eq_false_of_ne_true ha, ha', hz]
      · simp [eq_false_of_ne_true ha']
        exact ih _

theorem stopLaserSession_fst (dev : DevOracle) (s : ManagerState) :
    (stopLaserSession dev s).1 =
      if s.isSessionActive then { s with isSessionActive := false, sessionTimer := none }
      else s := by
  by_cases h : s.isSessionActive <;> simp [stopLaserSession, h]

theorem stopLaserSession_inactive_eq (dev : DevOracle) (s : ManagerState)
    (h : s.isSessionActive = false) : stopLaserSession dev s = (s, []) := by
  simp [stopLaserSession, h]

theorem emergencyStop_fst (dev : DevOracle) (s : ManagerState) :
    (emergencyStop dev s).1 =
      { s with isSessionActive := false, sessionTimer := none } := by
  rcases s with ⟨a, t, l⟩
  by_cases h : a <;> cases t <;>
    simp [emergencyStop, stopLaserSession, h]

theorem checkTimeBasedTrigger_fst_cases (dev : DevOracle)
    (g : String → Option Settings) (now : Nat) (s : ManagerState) :
    (checkTimeBasedTrigger dev g now s).1 = s ∨
      ∃ d, (checkTimeBasedTrigger dev g now s).1 =
        (startLaserSession dev now d s).1 := by
  unfold checkTimeBasedTrigger
  cases hg : g "jasmi" with
  | none => exact Or.inl rfl
  | some st =>
    dsimp only
    repeat' split
    all_goals first
      | exact Or.inl rfl
      | exact Or.inr ⟨st.sessionDuration, rfl⟩

theorem handleCatDetection_fst_cases (dev : DevOracle)
    (g : String → Option Settings) (now : Nat) (payload : String)
    (s : ManagerState) :
    (handleCatDetection dev g now payload s).1 = s ∨
      ∃ d, (handleCatDetection dev g now payload s).1 =
        (startLaserSession dev now d s).1 := by
  unfold handleCatDetection
  cases hg : g "jasmi" with
  | none => exact Or.inl rfl
  | some st =>
    dsimp only
    repeat' split
    all_goals first
      | exact Or.inl rfl
      | exact Or.inr ⟨st.sessionDuration, rfl⟩

/-- Key structural invariant of the manager: whenever no session is active,
no auto-stop timer is pending. -/
def TimerInv (s : ManagerState) : Prop :=
  s.isSessionActive = false → s.sessionTimer = none

theorem timerInv_initial : TimerInv initialState := fun _ => rfl

theorem timerInv_start (dev : DevOracle) (now d : Nat) (s : ManagerState)
    (h : TimerInv s) : TimerInv (startLaserSession dev now d s).1 := by
  rw [startLaserSession_fst]
  by_cases h1 : s.isSessionActive
  · simpa [h1] using h
  · by_cases h2 : dev DevCall.laserOn && dev DevCall.autoStart <;>
      simp [TimerInv, h1, h2] at h ⊢
    exact h

theorem timerInv_stop (dev : DevOracle) (s : ManagerState)
    (h : TimerInv s) : TimerInv (stopLaserSession dev s).1 := by
  rw [stopLaserSession_fst]
  by_cases h1 : s.isSessionActive
  · simp [TimerInv, h1]
  · simp [TimerInv, h1] at h ⊢
    exact h

theorem timerInv_estop (dev : DevOracle) (s : ManagerState) :
    TimerInv (emergencyStop dev s).1 := by
  rw [emergencyStop_fst]
  intro _
  rfl

theorem timerInv_shutdown (dev : DevOracle) (s : ManagerState)
    (h : TimerInv s) : TimerInv (shutdown dev s).1 := by
  unfold shutdown
  by_cases h1 : s.isSessionActive <;> simp [h1]
  · exact timerInv_stop dev s h
  · exact h

theorem timerInv_check (dev : DevOracle) (g : String → Option Settings)
    (now : Nat) (s : ManagerState) (h : TimerInv s) :
    TimerInv (checkTimeBasedTrigger dev g now s).1 := by
  rcases checkTimeBasedTrigger_fst_cases dev g now s with hc | ⟨d, hc⟩ <;> rw [hc]
  · exact h
  · exact timerInv_start dev now d s h

theorem timerInv_detect (dev : DevOracle) (g : String → Option Settings)
    (now : Nat) (payload : String) (s : ManagerState) (h : TimerInv s) :
    TimerInv (handleCatDetection dev g now payload s).1 := by
  rcases handleCatDetection_fst_cases dev g now payload s with hc | ⟨d, hc⟩ <;> rw [hc]
  · exact h
  · exact timerInv_start dev now d s h

/-- One complete (run-to-completion) invocation of a public manager
operation, relating the state before to the state after. -/
inductive Step : ManagerState → ManagerState → Prop where
  | start (dev : DevOracle) (now d : Nat) (s : ManagerState) :
      Step s (startLaserSession dev now d s).1
  | stop (dev : DevOracle) (s : ManagerState) :
      Step s (stopLaserSession dev s).1
  | halt (dev : DevOracle) (s : ManagerState) :
      Step s (emergencyStop dev s).1
  | tick (dev : DevOracle) (g : String → Option Settings) (now : Nat)
      (s : ManagerState) : Step s (checkTimeBasedTrigger dev g now s).1
  | detect (dev : DevOracle) (g : String → Option Settings) (now : Nat)
      (payload : String) (s : ManagerState) :
      Step s (handleCatDetection dev g now payload s).1
  | teardown (dev : DevOracle) (s : ManagerState) :
      Step s (shutdown dev s).1

/-- States reachable from construction by complete operation invocations. -/
def Reachable (s : ManagerState) : Prop :=
  Relation.ReflTransGen Step initialState s

theorem step_timerInv (s s' : ManagerState) (hstep : Step s s') :
    TimerInv s → TimerInv s' := by
  cases hstep with
  | start dev now d s => exact timerInv_start dev now d s
  | stop dev s => exact timerInv_stop dev s
  | halt dev s => exact fun _ => timerInv_estop dev s
  | tick dev g now s => exact timerInv_check dev g now s
  | detect dev g now payload s => exact timerInv_detect dev g now payload s
  | teardown dev s => exact timerInv_shutdown dev s

theorem reachable_timerInv (s : ManagerState) (h : Reachable s) : TimerInv s := by
  induction h with
  | refl => exact timerInv_initial
  | tail _ hstep ih => exact step_timerInv _ _ hstep ih

/-- C1: in any sequence of startLaserSession invocations, at most one
invocation transitions the engine from Idle (isSessionActive = false) to
Active (isSessionActive = true), and every invocation made while a session
is Active returns with no device calls and the engine state unchanged. -/
theorem C1_mutual_exclusion (dev devA : DevOracle) (inputs : List (Nat × Nat))
    (now d : Nat) (s sA : ManagerState) (hA : sA.isSessionActive = true) :
    countStartTransitions dev inputs s ≤ 1 ∧
      startLaserSession devA now d sA = (sA, []) :=
  ⟨countStartTransitions_le_one dev inputs s,
    startLaserSession_active_eq devA now d sA hA⟩

theorem C1_mutual_exclusion_witness :
    countStartTransitions (fun _ => true) [(0, 5), (1, 5), (2, 5)] initialState ≤ 1 ∧
      startLaserSession (fun _ => true) 3 5
          { isSessionActive := true, sessionTimer := none, lastActivationTime := none }
        = ({ isSessionActive := true, sessionTimer := none, lastActivationTime := none }, []) :=
  C1_mutual_exclusion (fun _ => true) (fun _ => true) [(0, 5), (1, 5), (2, 5)]
    3 5 initialState
    { isSessionActive := true, sessionTimer := none, lastActivationTime := none } rfl

/-- C2 counterexample: from the engine state with isSessionActive = false
but a pending auto-stop timer handle, stopLaserSession returns on its early
guard and does not clear the timer, so it does not complete with
sessionTimer = none even though every remote call would succeed. -/
theorem C2_counterexample :
    ¬ ((stopLaserSession (fun _ => true)
          { isSessionActive := false, sessionTimer := some 0,
            lastActivationTime := none }).1.sessionTimer = none) := by
  decide

/-- C2 (amended): emergencyStop completes with Idle and no pending timer
from every engine state and every remote-call outcome; stopLaserSession does
so from every state reachable by complete operation invocations (where
inactive implies no pending timer) — but from the unreachable state with
isSessionActive = false and a pending timer it is a no-op that leaves the
timer pending. -/
theorem C2_stop_halt_reset (dev : DevOracle) (s : ManagerState) :
    ((emergencyStop dev s).1.isSessionActive = false ∧
      (emergencyStop dev s).1.sessionTimer = none) ∧
    (Reachable s →
      (stopLaserSession dev s).1.isSessionActive = false ∧
        (stopLaserSession dev s).1.sessionTimer = none) := by
  constructor
  · rw [emergencyStop_fst]
    exact ⟨rfl, rfl⟩
  · intro hr
    rw [stopLaserSession_fst]
    by_cases h : s.isSessionActive
    · simp [h]
    · have hFalse : s.isSessionActive = false := eq_false_of_ne_true h
      have := reachable_timerInv s hr hFalse
      simp [h, hFalse, this]

theorem C2_stop_halt_reset_witness :
    ((emergencyStop (fun _ => true) initialState).1.isSessionActive = false ∧
      (emergencyStop (fun _ => true) initialState).1.sessionTimer = none) ∧
    ((stopLaserSession (fun _ => true) initialState).1.isSessionActive = false ∧
      (stopLaserSession (fun _ => true) initialState).1.sessionTimer = none) :=
  ⟨(C2_stop_halt_reset (fun _ => true) initialState).1,
    (C2_stop_halt_reset (fun _ => true) initialState).2 Relation.ReflTransGen.refl⟩

/-- C7: from every state reachable from construction, stopLaserSession
leaves the engine Idle with no pending timer, and a second stopLaserSession
immediately after is a no-op that issues no device calls and leaves the end
state exactly as after the first call. -/
theorem C7_idempotent_stop (dev dev2 : DevOracle) (s : ManagerState)
    (h : Reachable s) :
    stopLaserSession dev2 (stopLaserSession dev s).1 =
        ((stopLaserSession dev s).1, []) ∧
      (stopLaserSession dev s).1.isSessionActive = false ∧
      (stopLaserSession dev s).1.sessionTimer = none := by
  have hstate : (stopLaserSession dev s).1.isSessionActive = false ∧
      (stopLaserSession dev s).1.sessionTimer = none := by
    rw [stopLaserSession_fst]
    by_cases hA : s.isSessionActive
    · simp [hA]
    · have hFalse : s.isSessionActive = false := eq_false_of_ne_true hA
      have := reachable_timerInv s h hFalse
      simp [hA, hFalse, this]
  exact ⟨stopLaserSession_inactive_eq dev2 _ hstate.1, hstate⟩

theorem startLaserSession_failure_fst (dev : DevOracle) (now d : Nat)
    (s : ManagerState) (hIdle : s.isSessionActive = false)
    (hfail : dev DevCall.laserOn = false ∨ dev DevCall.autoStart = false) :
    (startLaserSession dev now d s).1 =
      { s with isSessionActive := false, lastActivationTime := some now } := by
  rw [startLaserSession_fst]
  have hand : (dev DevCall.laserOn && dev DevCall.autoStart) = false := by
    rcases hfail with hf | hf <;> simp [hf]
  simp [hIdle, hand]

theorem startLaserSession_failure_trace (dev : DevOracle) (now d : Nat)
    (s : ManagerState) (hIdle : s.isSessionActive = false)
    (hfail : dev DevCall.laserOn = false ∨ dev DevCall.autoStart = false) :
    DevCall.laserOff ∈ (startLaserSession dev now d s).2 := by
  by_cases h2 : dev DevCall.laserOn
  · by_cases h3 : dev DevCall.autoStart
    · rcases hfail with hf | hf
      · simp [h2] at hf
      · simp [h3] at hf
    · by_cases h4 : dev DevCall.laserOff <;>
        simp [startLaserSession, startFailureCleanup, hIdle, h2, h3, h4]
  · by_cases h4 : dev DevCall.laserOff <;>
      simp [startLaserSession, startFailureCleanup, hIdle, h2, h4]

theorem startLaserSession_idle_trace_ne (dev : DevOracle) (now d : Nat)
    (s : ManagerState) (hIdle : s.isSessionActive = false) :
    (startLaserSession dev now d s).2 ≠ [] := by
  by_cases h2 : dev DevCall.laserOn <;> by_cases h3 : dev DevCall.autoStart <;>
    by_cases h4 : dev DevCall.laserOff <;>
    simp [startLaserSession, startFailureCleanup, hIdle, h2, h3, h4]

/-- C3: when GET /on or POST /autonomous/start fails during a start from
Idle, the start operation completes with the active flag false, no auto-stop
timer scheduled (the timer field is untouched), a compensating GET /off
attempted, the resulting state independent of the cleanup outcome, and both
trigger entry points likewise complete with the engine inactive. -/
theorem C3_start_failure_cleanup (dev : DevOracle)
    (g : String → Option Settings) (now now2 d : Nat) (payload : String)
    (s : ManagerState) (hIdle : s.isSessionActive = false)
    (hfail : dev DevCall.laserOn = false ∨ dev DevCall.autoStart = false) :
    (startLaserSession dev now d s).1 =
        { s with isSessionActive := false, lastActivationTime := some now } ∧
      (startLaserSession dev now d s).1.sessionTimer = s.sessionTimer ∧
      DevCall.laserOff ∈ (startLaserSession dev now d s).2 ∧
      (checkTimeBasedTrigger dev g now2 s).1.isSessionActive = false ∧
      (handleCatDetection dev g now2 payload s).1.isSessionActive = false := by
  refine ⟨startLaserSession_failure_fst dev now d s hIdle hfail, ?_, ?_, ?_, ?_⟩
  · rw [startLaserSession_failure_fst dev now d s hIdle hfail]
  · exact startLaserSession_failure_trace dev now d s hIdle hfail
  · rcases checkTimeBasedTrigger_fst_cases dev g now2 s with hc | ⟨dd, hc⟩ <;> rw [hc]
    · exact hIdle
    · rw [startLaserSession_failure_fst dev now2 dd s hIdle hfail]
  · rcases handleCatDetection_fst_cases dev g now2 payload s with hc | ⟨dd, hc⟩ <;>
      rw [hc]
    · exact hIdle
    · rw [startLaserSession_failure_fst dev now2 dd s hIdle hfail]

theorem C3_start_failure_cleanup_witness :
    (startLaserSession (fun _ => false) 7 5 initialState).1 =
        { initialState with isSessionActive := false, lastActivationTime := some 7 } ∧
      (startLaserSession (fun _ => false) 7 5 initialState).1.sessionTimer =
        initialState.sessionTimer ∧
      DevCall.laserOff ∈ (startLaserSession (fun _ => false) 7 5 initialState).2 ∧
      (checkTimeBasedTrigger (fun _ => false) (fun _ => none) 8 initialState).1.isSessionActive
        = false ∧
      (handleCatDetection (fun _ => false) (fun _ => none) 8 "cat" initialState).1.isSessionActive
        = false :=
  C3_start_failure_cleanup (fun _ => false) (fun _ => none) 7 8 5 "cat"
    initialState rfl (Or.inl rfl)

theorem checkTimeBasedTrigger_guard_noop (dev : DevOracle)
    (g : String → Option Settings) (now : Nat) (s : ManagerState)
    (h : g "jasmi" = none ∨ s.isSessionActive = true ∨
      ∃ st, g "jasmi" = some st ∧ (st.autonomousModeEnabled = false ∨
        st.notificationsEnabled = true ∨ st.triggerType ≠ "interval")) :
    checkTimeBasedTrigger dev g now s = (s, []) := by
  unfold checkTimeBasedTrigger
  rcases h with hg | hA | ⟨st, hg, hcond⟩
  · rw [hg]
  · cases hgg : g "jasmi" with
    | none => rfl
    | some st => simp [hA]
  · rw [hg]
    dsimp only
    rcases hcond with h1 | h2 | h3
    · simp [h1]
    · simp [h2]
    · simp [h3]

theorem handleCatDetection_guard_noop (dev : DevOracle)
    (g : String → Option Settings) (now : Nat) (payload : String)
    (s : ManagerState)
    (h : g "jasmi" = none ∨ s.isSessionActive = true ∨
      ∃ st, g "jasmi" = some st ∧ (st.autonomousModeEnabled = false ∨
        st.notificationsEnabled = true ∨ st.triggerType ≠ "detection")) :
    handleCatDetection dev g now payload s = (s, []) := by
  unfold handleCatDetection
  rcases h with hg | hA | ⟨st, hg, hcond⟩
  · rw [hg]
  · cases hgg : g "jasmi" with
    | none => rfl
    | some st => simp [hA]
  · rw [hg]
    dsimp only
    rcases hcond with h1 | h2 | h3
    · simp [h1]
    · simp [h2]
    · simp [h3]

/-- C4: each trigger entry point, in any invocation of its own, is a
complete no-op — startLaserSession is not invoked and no device call is
issued — when settings are absent, or autonomousModeEnabled is false, or
notificationsEnabled is true, or the triggerType does not match that path,
or a session is already Active; the two paths are quantified independently,
so in particular an otherwise-eligible idle engine with
triggerType = "detection" makes the interval tick a no-op, and vice versa. -/
theorem C4_guard_completeness (dev1 dev2 : DevOracle)
    (g1 g2 : String → Option Settings) (now1 now2 : Nat) (payload : String)
    (s1 s2 : ManagerState)
    (hInt : g1 "jasmi" = none ∨ s1.isSessionActive = true ∨
      ∃ st, g1 "jasmi" = some st ∧ (st.autonomousModeEnabled = false ∨
        st.notificationsEnabled = true ∨ st.triggerType ≠ "interval"))
    (hDet : g2 "jasmi" = none ∨ s2.isSessionActive = true ∨
      ∃ st, g2 "jasmi" = some st ∧ (st.autonomousModeEnabled = false ∨
        st.notificationsEnabled = true ∨ st.triggerType ≠ "detection")) :
    checkTimeBasedTrigger dev1 g1 now1 s1 = (s1, []) ∧
      handleCatDetection dev2 g2 now2 payload s2 = (s2, []) :=
  ⟨checkTimeBasedTrigger_guard_noop dev1 g1 now1 s1 hInt,
    handleCatDetection_guard_noop dev2 g2 now2 payload s2 hDet⟩

theorem C4_guard_completeness_witness :
    checkTimeBasedTrigger (fun _ => true)
        (fun _ => some ⟨false, true, "detection", 2, 5⟩) 9 initialState
      = (initialState, []) ∧
    handleCatDetection (fun _ => true)
        (fun _ => some ⟨false, true, "interval", 2, 5⟩) 9 "cat" initialState
      = (initialState, []) :=
  C4_guard_completeness (fun _ => true) (fun _ => true)
    (fun _ => some ⟨false, true, "detection", 2, 5⟩)
    (fun _ => some ⟨false, true, "interval", 2, 5⟩) 9 9 "cat"
    initialState initialState
    (Or.inr (Or.inr ⟨⟨false, true, "detection", 2, 5⟩, rfl,
      Or.inr (Or.inr (by decide))⟩))
    (Or.inr (Or.inr ⟨⟨false, true, "interval", 2, 5⟩, rfl,
      Or.inr (Or.inr (by decide))⟩))

/-- C6: a successful start issues GET /on strictly before
POST /autonomous/start; a stop that issues device calls issues
POST /autonomous/stop first and GET /off only afterwards (and only when the
first call succeeded). -/
theorem C6_device_call_ordering (dev : DevOracle) (now d : Nat)
    (s1 s2 : ManagerState) (h1 : s1.isSessionActive = false)
    (hOn : dev DevCall.laserOn = true) (hAS : dev DevCall.autoStart = true)
    (h2 : s2.isSessionActive = true) :
    (startLaserSession dev now d s1).2 = [DevCall.laserOn, DevCall.autoStart] ∧
      (stopLaserSession dev s2).2 =
        (if dev DevCall.autoStop then [DevCall.autoStop, DevCall.laserOff]
         else [DevCall.autoStop]) := by
  constructor
  · simp [startLaserSession, h1, hOn, hAS]
  · simp [stopLaserSession, h2]

theorem C6_device_call_ordering_witness :
    (startLaserSession (fun _ => true) 4 5 initialState).2 =
        [DevCall.laserOn, DevCall.autoStart] ∧
      (stopLaserSession (fun _ => true)
          { isSessionActive := true, sessionTimer := some 11,
            lastActivationTime := some 4 }).2 =
        (if (fun (_ : DevCall) => true) DevCall.autoStop then
          [DevCall.autoStop, DevCall.laserOff] else [DevCall.autoStop]) :=
  C6_device_call_ordering (fun _ => true) 4 5 initialState
    { isSessionActive := true, sessionTimer := some 11,
      lastActivationTime := some 4 } rfl rfl rfl rfl

theorem C7_idempotent_stop_witness :
    stopLaserSession (fun _ => true)
        (stopLaserSession (fun _ => false) initialState).1 =
      ((stopLaserSession (fun _ => false) initialState).1, []) ∧
    (stopLaserSession (fun _ => false) initialState).1.isSessionActive = false ∧
    (stopLaserSession (fun _ => false) initialState).1.sessionTimer = none :=
  C7_idempotent_stop (fun _ => false) (fun _ => true) initialState
    Relation.ReflTransGen.refl

/-- C5: when the interval check passes every eligibility guard and
lastActivationTime holds a genuine Date.now() value (positive, as every real
clock reading is), the check fires startLaserSession exactly when
lastActivationTime is unset or now minus lastActivationTime is at least
timeInterval times 3600000 ms; with timeInterval = 2 it fires at
T + 7200000 ms and not at T + 7199999 ms. -/
theorem C5_interval_arithmetic (dev : DevOracle) (g : String → Option Settings)
    (s : ManagerState) (st : Settings)
    (hg : g "jasmi" = some st) (ha : st.autonomousModeEnabled = true)
    (hn : st.notificationsEnabled = false) (ht : st.triggerType = "interval")
    (hidle : s.isSessionActive = false)
    (hpos : s.lastActivationTime = none ∨
      ∃ t, s.lastActivationTime = some t ∧ 0 < t) :
    (∀ now : Nat, (checkTimeBasedTrigger dev g now s).2 ≠ [] ↔
      (s.lastActivationTime = none ∨
        ∃ t, s.lastActivationTime = some t ∧
          (st.timeInterval : Int) * 3600000 ≤ (now : Int) - (t : Int))) ∧
    (st.timeInterval = 2 →
      ∀ T : Nat, s.lastActivationTime = some T →
        (checkTimeBasedTrigger dev g (T + 7200000) s).2 ≠ [] ∧
          (checkTimeBasedTrigger dev g (T + 7199999) s).2 = []) := by
  have hmain : ∀ now : Nat, (checkTimeBasedTrigger dev g now s).2 ≠ [] ↔
      (s.lastActivationTime = none ∨
        ∃ t, s.lastActivationTime = some t ∧
          (st.timeInterval : Int) * 3600000 ≤ (now : Int) - (t : Int)) := by
    intro now
    unfold checkTimeBasedTrigger
    rw [hg]
    dsimp only
    rcases hpos with hN | ⟨t, hT, htpos⟩
    · simp [ha, hn, ht, hidle, hN,
        startLaserSession_idle_trace_ne dev now st.sessionDuration s hidle]
    · have hne : (t == 0) = false := by
        simp [Nat.pos_iff_ne_zero.mp htpos]
      have hring : (st.timeInterval : Int) * 60 * 60 * 1000 =
          (st.timeInterval : Int) * 3600000 := by ring
      by_cases hc : (now : Int) - (t : Int) ≥ (st.timeInterval : Int) * 60 * 60 * 1000
      · simp only [ha, hn, ht, hidle, hT, hne]
        simp [hc, startLaserSession_idle_trace_ne dev now st.sessionDuration s hidle, hT]
        rw [hring] at hc
        omega
      · simp only [ha, hn, ht, hidle, hT, hne]
        simp [hc, hT]
        rw [hring] at hc
        omega
  refine ⟨hmain, ?_⟩
  intro h2 T hT
  constructor
  · rw [hmain (T + 7200000)]
    refine Or.inr ⟨T, hT, ?_⟩
    rw [h2]
    push_cast
    omega
  · by_contra hc
    rcases (hmain (T + 7199999)).mp hc with h0 | ⟨t', ht', hle⟩
    · rw [hT] at h0
      cases h0
    · rw [hT] at ht'
      injection ht' with hEq
      subst hEq
      rw [h2] at hle
      push_cast at hle
      omega

theorem C5_interval_arithmetic_witness :
    (∀ now : Nat,
      (checkTimeBasedTrigger (fun _ => true)
          (fun _ => some ⟨false, true, "interval", 2, 5⟩) now
          ⟨false, none, some 100⟩).2 ≠ [] ↔
        ((some 100 : Option Nat) = none ∨
          ∃ t, (some 100 : Option Nat) = some t ∧
            ((2 : Nat) : Int) * 3600000 ≤ (now : Int) - (t : Int))) ∧
    ((2 : Nat) = 2 →
      ∀ T : Nat, (some 100 : Option Nat) = some T →
        (checkTimeBasedTrigger (fun _ => true)
            (fun _ => some ⟨false, true, "interval", 2, 5⟩) (T + 7200000)
            ⟨false, none, some 100⟩).2 ≠ [] ∧
          (checkTimeBasedTrigger (fun _ => true)
              (fun _ => some ⟨false, true, "interval", 2, 5⟩) (T + 7199999)
              ⟨false, none, some 100⟩).2 = []) :=
  C5_interval_arithmetic (fun _ => true)
    (fun _ => some ⟨false, true, "interval", 2, 5⟩)
    ⟨false, none, some 100⟩
    ⟨false, true, "interval", 2, 5⟩ rfl rfl rfl rfl rfl
    (Or.inr ⟨100, rfl, by decide⟩)

/-- C9: a failed start keeps lastActivationTime at the timestamp recorded
when the attempt began, while the active flag is reset and the timer field
untouched; consequently an interval check running less than a full
timeInterval after the failed attempt is a no-op rather than a retry. -/
theorem C9_failed_start_frame (dev dev2 : DevOracle)
    (g : String → Option Settings) (now now2 d : Nat) (s : ManagerState)
    (hIdle : s.isSessionActive = false)
    (hfail : dev DevCall.laserOn = false ∨ dev DevCall.autoStart = false)
    (hnow : 0 < now)
    (hsoon : ∀ st, g "jasmi" = some st →
      (now2 : Int) - (now : Int) < (st.timeInterval : Int) * 3600000) :
    (startLaserSession dev now d s).1.lastActivationTime = some now ∧
      (startLaserSession dev now d s).1.isSessionActive = false ∧
      (startLaserSession dev now d s).1.sessionTimer = s.sessionTimer ∧
      checkTimeBasedTrigger dev2 g now2 (startLaserSession dev now d s).1 =
        ((startLaserSession dev now d s).1, []) := by
  have hfst := startLaserSession_failure_fst dev now d s hIdle hfail
  refine ⟨by rw [hfst], by rw [hfst], by rw [hfst], ?_⟩
  rw [hfst]
  unfold checkTimeBasedTrigger
  cases hgg : g "jasmi" with
  | none => rfl
  | some st =>
    dsimp only
    have hno : ((now == 0) ||
        decide ((now2 : Int) - (now : Int) ≥
          (st.timeInterval : Int) * 60 * 60 * 1000)) = false := by
      have h1 : (now == 0) = false := by simp [Nat.pos_iff_ne_zero.mp hnow]
      have h2 : ¬ ((now2 : Int) - (now : Int) ≥
          (st.timeInterval : Int) * 60 * 60 * 1000) := by
        have hr : (st.timeInterval : Int) * 60 * 60 * 1000 =
            (st.timeInterval : Int) * 3600000 := by ring
        rw [hr]
        have := hsoon st hgg
        omega
      simp [h1, h2]
    simp [hno]

theorem C9_failed_start_frame_witness :
    (startLaserSession (fun _ => false) 10 5 initialState).1.lastActivationTime
        = some 10 ∧
      (startLaserSession (fun _ => false) 10 5 initialState).1.isSessionActive
        = false ∧
      (startLaserSession (fun _ => false) 10 5 initialState).1.sessionTimer
        = initialState.sessionTimer ∧
      checkTimeBasedTrigger (fun _ => true)
          (fun _ => some ⟨false, true, "interval", 2, 5⟩) 11
          (startLaserSession (fun _ => false) 10 5 initialState).1 =
        ((startLaserSession (fun _ => false) 10 5 initialState).1, []) :=
  C9_failed_start_frame (fun _ => false) (fun _ => true)
    (fun _ => some ⟨false, true, "interval", 2, 5⟩) 10 11 5 initialState rfl
    (Or.inl rfl) (by decide)
    (by
      intro st hst
      injection hst with h
      rw [← h]
      decide)

/-- C10: both trigger entry points consult only the settings entry for the
fixed user id jasmi: their result is unchanged under any replacement of the
settings store that agrees on jasmi, and under any change of the detection
payload. -/
theorem C10_fixed_user_settings (dev : DevOracle)
    (g1 g2 : String → Option Settings) (now : Nat) (p1 p2 : String)
    (s : ManagerState) (h : g1 "jasmi" = g2 "jasmi") :
    checkTimeBasedTrigger dev g1 now s = checkTimeBasedTrigger dev g2 now s ∧
      handleCatDetection dev g1 now p1 s = handleCatDetection dev g2 now p2 s := by
  constructor
  · unfold checkTimeBasedTrigger
    rw [h]
  · unfold handleCatDetection
    rw [h]

theorem C10_fixed_user_settings_witness :
    checkTimeBasedTrigger (fun _ => true)
        (fun u => if u = "jasmi" then some ⟨false, true, "interval", 2, 5⟩ else none)
        12 initialState =
      checkTimeBasedTrigger (fun _ => true)
        (fun _ => some ⟨false, true, "interval", 2, 5⟩) 12 initialState ∧
    handleCatDetection (fun _ => true)
        (fun u => if u = "jasmi" then some ⟨false, true, "interval", 2, 5⟩ else none)
        12 "tabby" initialState =
      handleCatDetection (fun _ => true)
        (fun _ => some ⟨false, true, "interval", 2, 5⟩) 12 "tuxedo" initialState :=
  C10_fixed_user_settings (fun _ => true)
    (fun u => if u = "jasmi" then some ⟨false, true, "interval", 2, 5⟩ else none)
    (fun _ => some ⟨false, true, "interval", 2, 5⟩) 12 "tabby" "tuxedo"
    initialState (by decide)

/-- C8 counterexample: the selectWorkingUrl of src/backend/server-helpers.js
returns none (null), not the primary address, when both health checks fail. -/
theorem C8_counterexample :
    ServerHelpers.selectWorkingUrl (fun _ => false)
        { primary := "http://primary", remote := "http://remote" } = none ∧
      ServerHelpers.selectWorkingUrl (fun _ => false)
          { primary := "http://primary", remote := "http://remote" } ≠
        some "http://primary" := by
  constructor
  · rfl
  · decide

/-- C8 (amended): when the primary health check succeeds both versions of
selectWorkingUrl return the primary; when only the remote check succeeds
both return the remote; when both fail, the server-helpers version returns
null (signalling unavailability) while only the legacy standalone-server
version falls back to the primary address. -/
theorem C8_url_selection (hBoth hPrim hRem : String → Bool)
    (cfg1 cfg2 cfg3 : UrlConfig)
    (h1p : hBoth cfg1.primary = false) (h1r : hBoth cfg1.remote = false)
    (h2p : hPrim cfg2.primary = true)
    (h3p : hRem cfg3.primary = false) (h3r : hRem cfg3.remote = true) :
    (ServerHelpers.selectWorkingUrl hBoth cfg1 = none ∧
      LegacyServer.selectWorkingUrl hBoth cfg1 = cfg1.primary) ∧
    (ServerHelpers.selectWorkingUrl hPrim cfg2 = some cfg2.primary ∧
      LegacyServer.selectWorkingUrl hPrim cfg2 = cfg2.primary) ∧
    (ServerHelpers.selectWorkingUrl hRem cfg3 = some cfg3.remote ∧
      LegacyServer.selectWorkingUrl hRem cfg3 = cfg3.remote) := by
  simp [ServerHelpers.selectWorkingUrl, LegacyServer.selectWorkingUrl,
    h1p, h1r, h2p, h3p, h3r]

theorem C8_url_selection_witness :
    (ServerHelpers.selectWorkingUrl (fun _ => false) ⟨"p", "r"⟩ = none ∧
      LegacyServer.selectWorkingUrl (fun _ => false) ⟨"p", "r"⟩ =
        (⟨"p", "r"⟩ : UrlConfig).primary) ∧
    (ServerHelpers.selectWorkingUrl (fun _ => true) ⟨"p", "r"⟩ =
        some (⟨"p", "r"⟩ : UrlConfig).primary ∧
      LegacyServer.selectWorkingUrl (fun _ => true) ⟨"p", "r"⟩ =
        (⟨"p", "r"⟩ : UrlConfig).primary) ∧
    (ServerHelpers.selectWorkingUrl (fun u => u == "r") ⟨"p", "r"⟩ =
        some (⟨"p", "r"⟩ : UrlConfig).remote ∧
      LegacyServer.selectWorkingUrl (fun u => u == "r") ⟨"p", "r"⟩ =
        (⟨"p", "r"⟩ : UrlConfig).remote) :=
  C8_url_selection (fun _ => false) (fun _ => true) (fun u => u == "r")
    ⟨"p", "r"⟩ ⟨"p", "r"⟩ ⟨"p", "r"⟩ rfl rfl rfl (by decide) (by decide)

end CCLT
